import Mathlib

/-!
Verification development for the AI suggestion-processing core (`app/ai.py`)
of the civic-suggestion web application.

The Python module is shallowly embedded: every outcome of an outbound
provider call (success payload, transport exception, HTTP error status) is
supplied by an explicit environment, and the metrics-recorder side effect is
threaded as an explicit list of `OperationRecord`s.  Latencies and parsed
embedding vectors are modelled as exact rationals.
-/

namespace Suggest

/-- One row written by `track_ai_metric` (mirrors the `AIMetrics` columns the
core sets: operation kind, provider identity, success flag, latency, optional
error text). -/
structure OperationRecord where
  operation : String
  provider : String
  success : Bool
  response_time : Option ℚ
  error_message : Option String
deriving DecidableEq

/-- The two interchangeable generation providers iterated by the cascades
(`gemini` is reserved for embeddings and is excluded by
`_get_available_providers`). -/
inductive Provider
  | groq
  | openrouter
deriving DecidableEq

/-- Outcome of one `groq_client.chat.completions.create` call: either an
exception is raised, or a content string comes back. -/
inductive GroqResp
  | exn (msg : String)
  | ok (content : String)
deriving DecidableEq

/-- Outcome of one `requests.post` to OpenRouter: an exception, a non-200
HTTP status, or a 200 response with a content string. -/
inductive ORResp
  | exn (msg : String)
  | httpErr (status : Nat)
  | ok (content : String)
deriving DecidableEq

/-- Environment of one generation-style cascade run: the shuffled available
provider list produced by `_get_available_providers`, what each provider
would reply if called, the elapsed latency of each call, and whether the
metrics database commit succeeds. -/
structure GenEnv where
  providers : List Provider
  groq : GroqResp
  openrouter : ORResp
  groqLat : ℚ
  orLat : ℚ
  dbOk : Bool

/-- Outcome of one `genai.embed_content` call. -/
inductive EmbResp
  | exn (msg : String)
  | ok (vec : List ℚ)
deriving DecidableEq

/-- Environment of one `get_embedding` call: whether `GEMINI_API_KEY` is
configured, the call outcome, its latency, and the metrics-commit flag. -/
structure EmbedEnv where
  keyConfigured : Bool
  result : EmbResp
  lat : ℚ
  dbOk : Bool

/-- A stored `embedding_vector` column value as seen by `json.loads` plus
`cosine_similarity`: either malformed (parsing or shaping raises) or a
well-formed numeric vector. -/
inductive EmbStored
  | bad
  | good (vec : List ℚ)
deriving DecidableEq

/-- An existing suggestion offered to `check_duplicate`: its text and its
optional stored embedding (`none` models a null/empty, falsy column). -/
structure Suggestion where
  text : String
  embedding_vector : Option EmbStored
deriving DecidableEq

/-- Environment of one `check_duplicate` run: a generation environment for
the i-th `is_semantically_similar` call (each call reshuffles providers), and
the embedding environment for the single `get_embedding` call. -/
structure DupEnv where
  judge : Nat → GenEnv
  embed : EmbedEnv

/-- The body of `track_ai_metric`'s try block: adding and committing the
metric row, which can raise when the database is unavailable. -/
def dbAddCommit (dbOk : Bool) (r : OperationRecord) (log : List OperationRecord) :
    Except String (List OperationRecord) :=
  if dbOk then Except.ok (log ++ [r]) else Except.error "database commit failed"

/-- `track_ai_metric`: attempts to persist the record; any exception from the
commit is caught and discarded (the except branch only prints), so the log is
returned unchanged on failure and the function never propagates an error. -/
def track_ai_metric (dbOk : Bool) (r : OperationRecord) (log : List OperationRecord) :
    List OperationRecord :=
  match dbAddCommit dbOk r log with
  | Except.ok newLog => newLog
  | Except.error _ => log

/-- Python `str.lower()` (per character). -/
def pyLower (s : String) : String :=
  String.mk (s.data.map Char.toLower)

/-- Python `str.upper()` (per character). -/
def pyUpper (s : String) : String :=
  String.mk (s.data.map Char.toUpper)

/-- Python `str.strip()`: drop leading and trailing whitespace. -/
def pyStrip (s : String) : String :=
  String.mk (((s.data.dropWhile Char.isWhitespace).reverse.dropWhile Char.isWhitespace).reverse)

/-- Helper for `pySplit`: split a character list on whitespace runs,
accumulating the current (reversed) token. -/
def pySplitAux : List Char → List Char → List String
  | [], acc => if acc.isEmpty then [] else [String.mk acc.reverse]
  | c :: cs, acc =>
    if c.isWhitespace then
      if acc.isEmpty then pySplitAux cs [] else String.mk acc.reverse :: pySplitAux cs []
    else pySplitAux cs (c :: acc)

/-- Python `str.split()` with no argument: whitespace-delimited tokens,
empty tokens discarded. -/
def pySplit (s : String) : List String :=
  pySplitAux s.data []

/-- Helper: does some suffix of the haystack start with the needle. -/
def containsSubAux (needle : List Char) : List Char → Bool
  | [] => needle.isEmpty
  | c :: cs => needle.isPrefixOf (c :: cs) || containsSubAux needle cs

/-- Python `needle in hay` on strings: substring containment. -/
def containsSub (needle hay : String) : Bool :=
  containsSubAux needle.data hay.data

/-- One dynamic-programming row step for the longest common subsequence:
given the previous row (tail starting at column j) and the value to the
left in the new row, emit the rest of the new row. -/
def lcsNextRow (x : Char) : List Char → List Nat → Nat → List Nat
  | y :: ys, pj :: rest, left =>
    let up := match rest with
      | u :: _ => u
      | [] => 0
    let cell := if x = y then pj + 1 else max up left
    cell :: lcsNextRow x ys rest cell
  | _, _, _ => []

/-- Length of the longest common subsequence of two character lists
(quadratic row-by-row dynamic programming). -/
def lcs (xs ys : List Char) : Nat :=
  let row := xs.foldl (fun r x => 0 :: lcsNextRow x ys r 0) (List.replicate (ys.length + 1) 0)
  row.getLastD 0

/-- `rapidfuzz.fuzz.ratio`: the normalized indel similarity on a 0–100
scale, `200 * lcs / (len1 + len2)` (100 for two empty strings), modelled
exactly over the rationals.  Built with `mkRat` so it evaluates inside the
kernel; `fuzzScore_eq_div` below certifies it equals the quotient. -/
def fuzzScore (a b : String) : ℚ :=
  if a.data.length + b.data.length = 0 then 100
  else mkRat (200 * (lcs a.data b.data : Int)) (a.data.length + b.data.length)

/-- The fixed category set of `categorize`. -/
def categories : List String :=
  ["Roads", "Power", "Water", "Security", "Health", "Education", "Other"]

/-- The fixed sentiment set of `analyze_sentiment`. -/
def sentiments : List String :=
  ["Positive", "Neutral", "Negative"]

/-- Shape validation for `categorize`: the stripped reply must be one of the
fixed categories. -/
def validCat (c : String) : Option String :=
  let cat := pyStrip c
  if cat ∈ categories then some cat else none

/-- Error text for an invalid-shaped `categorize` reply. -/
def catMsg (c : String) : String :=
  "Invalid category: " ++ pyStrip c

/-- Shape validation for `analyze_sentiment`. -/
def validSent (c : String) : Option String :=
  let s := pyStrip c
  if s ∈ sentiments then some s else none

/-- Error text for an invalid-shaped `analyze_sentiment` reply. -/
def sentMsg (c : String) : String :=
  "Invalid sentiment: " ++ pyStrip c

/-- Shape validation for `summarize`: any reply is accepted, stripped. -/
def validSumm (c : String) : Option String :=
  some (pyStrip c)

/-- Shape validation for the YES/NO duplicate judgment: the stripped,
upper-cased reply must be YES or NO; YES means the texts are the same idea. -/
def validYN (c : String) : Option Bool :=
  let a := pyUpper (pyStrip c)
  if a = "YES" then some true else if a = "NO" then some false else none

/-- Error text for an invalid-shaped duplicate judgment reply (the message
uses the stripped upper-cased answer, as the source does). -/
def ynMsg (c : String) : String :=
  "Invalid answer: " ++ pyUpper (pyStrip c)

/-- Placeholder invalid-shape message for operations (like `summarize`) that
never reject a reply. -/
def noMsg : String → String := fun _ => ""

/-- One provider attempt inside a generation cascade: the validated result
(if any) and the one `OperationRecord` the attempt emits — success, invalid
shape, transport exception, or (OpenRouter only) non-200 HTTP status. -/
def providerAttempt {α : Type} (env : GenEnv) (op : String) (validate : String → Option α)
    (msg : String → String) : Provider → Option α × OperationRecord
  | Provider.groq =>
    match env.groq with
    | GroqResp.exn m => (none, ⟨op, "groq", false, some env.groqLat, some m⟩)
    | GroqResp.ok c =>
      match validate c with
      | some v => (some v, ⟨op, "groq", true, some env.groqLat, none⟩)
      | none => (none, ⟨op, "groq", false, some env.groqLat, some (msg c)⟩)
  | Provider.openrouter =>
    match env.openrouter with
    | ORResp.exn m => (none, ⟨op, "openrouter", false, some env.orLat, some m⟩)
    | ORResp.httpErr code =>
      (none, ⟨op, "openrouter", false, some env.orLat, some ("HTTP " ++ toString code)⟩)
    | ORResp.ok c =>
      match validate c with
      | some v => (some v, ⟨op, "openrouter", true, some env.orLat, none⟩)
      | none => (none, ⟨op, "openrouter", false, some env.orLat, some (msg c)⟩)

/-- The shared provider loop of `categorize` / `summarize` /
`analyze_sentiment` / `is_semantically_similar`: try each provider of the
shuffled list in turn, tracking one metric per attempt, returning the first
validated reply; `none` when every provider is exhausted. -/
def genLoop {α : Type} (env : GenEnv) (op : String) (validate : String → Option α)
    (msg : String → String) : List Provider → List OperationRecord →
    Option α × List OperationRecord
  | [], log => (none, log)
  | p :: ps, log =>
    let a := providerAttempt env op validate msg p
    match a.1 with
    | some v => (some v, track_ai_metric env.dbOk a.2 log)
    | none => genLoop env op validate msg ps (track_ai_metric env.dbOk a.2 log)

/-- Whether a given provider, if called under this environment, yields a
validated (shape-correct) reply. -/
def providerValid {α : Type} (env : GenEnv) (validate : String → Option α) :
    Provider → Bool
  | Provider.groq =>
    match env.groq with
    | GroqResp.ok c => (validate c).isSome
    | _ => false
  | Provider.openrouter =>
    match env.openrouter with
    | ORResp.ok c => (validate c).isSome
    | _ => false

/-- Number of provider attempts a cascade makes on this list: it stops after
the first provider whose reply validates, otherwise tries them all. -/
def attemptsCount {α : Type} (env : GenEnv) (validate : String → Option α) :
    List Provider → Nat
  | [] => 0
  | p :: ps => if providerValid env validate p then 1 else attemptsCount env validate ps + 1

/-- The metric row recorded when an operation resolves through its local
deterministic fallback: fallback pseudo-provider, success, zero latency. -/
def fbRec (op : String) : OperationRecord :=
  ⟨op, "fallback", true, some 0, none⟩

/-- The deterministic keyword fallback of `categorize`: ordered substring
matches on the lower-cased text, defaulting to Other. -/
def categorizeFallback (t : String) : String :=
  let low := pyLower t
  if containsSub "road" low then "Roads"
  else if containsSub "power" low || containsSub "electric" low then "Power"
  else if containsSub "water" low then "Water"
  else if containsSub "security" low || containsSub "police" low then "Security"
  else if containsSub "health" low || containsSub "hospital" low then "Health"
  else if containsSub "education" low || containsSub "school" low then "Education"
  else "Other"

/-- The deterministic fallback of `summarize`: join the first 30
whitespace-delimited tokens with single spaces, appending an ellipsis when
the input has more than 30 tokens. -/
def summarizeFallback (t : String) : String :=
  String.intercalate " " ((pySplit t).take 30) ++ (if 30 < (pySplit t).length then "..." else "")

/-- `categorize`: provider cascade with shape validation against the fixed
category set; on exhaustion, track a fallback metric and apply the keyword
fallback. -/
def categorize (env : GenEnv) (text : String) : String × List OperationRecord :=
  let r := genLoop env "categorize" validCat catMsg env.providers []
  match r.1 with
  | some c => (c, r.2)
  | none => (categorizeFallback text, track_ai_metric env.dbOk (fbRec "categorize") r.2)

/-- `summarize`: provider cascade accepting any reply; on exhaustion, track a
fallback metric and truncate to the first 30 tokens. -/
def summarize (env : GenEnv) (text : String) : String × List OperationRecord :=
  let r := genLoop env "summarize" validSumm noMsg env.providers []
  match r.1 with
  | some s => (s, r.2)
  | none => (summarizeFallback text, track_ai_metric env.dbOk (fbRec "summarize") r.2)

/-- `analyze_sentiment`: provider cascade validated against
Positive/Neutral/Negative; on exhaustion, track a fallback metric and return
Neutral. -/
def analyze_sentiment (env : GenEnv) (_text : String) : String × List OperationRecord :=
  let r := genLoop env "sentiment" validSent sentMsg env.providers []
  match r.1 with
  | some s => (s, r.2)
  | none => ("Neutral", track_ai_metric env.dbOk (fbRec "sentiment") r.2)

/-- `get_embedding`: with no Gemini key configured it returns `None` without
touching the metrics recorder; otherwise the single Gemini call is made and
exactly one metric (success or failure) is tracked. -/
def get_embedding (env : EmbedEnv) (_text : String) : Option (List ℚ) × List OperationRecord :=
  if env.keyConfigured then
    match env.result with
    | EmbResp.ok v =>
      (some v, track_ai_metric env.dbOk ⟨"embedding", "gemini", true, some env.lat, none⟩ [])
    | EmbResp.exn m =>
      (none, track_ai_metric env.dbOk
        ⟨"embedding", "gemini", false, some env.lat, some ("Gemini embedding failed: " ++ m)⟩ [])
  else (none, [])

/-- `is_semantically_similar`: lexical pre-filter (case-insensitive ratio
> 90 is an immediate yes, < 60 an immediate no, with no provider call and no
metric), then the YES/NO provider cascade; on exhaustion, track a fallback
metric and use the stricter ratio > 85 as the verdict. -/
def is_semantically_similar (env : GenEnv) (t1 t2 : String) : Bool × List OperationRecord :=
  let r := fuzzScore (pyLower t1) (pyLower t2)
  if 90 < r then (true, [])
  else if r < 60 then (false, [])
  else
    let g := genLoop env "duplicate_check" validYN ynMsg env.providers []
    match g.1 with
    | some b => (b, g.2)
    | none => (decide (85 < r), track_ai_metric env.dbOk (fbRec "duplicate_check") g.2)

/-- Kernel-computable multiplication on ℚ (the library multiplication is
`@[irreducible]`); `qmul_eq` below certifies `qmul a b = a * b`. -/
def qmul (a b : ℚ) : ℚ :=
  mkRat (a.num * b.num) (a.den * b.den)

/-- Kernel-computable addition on ℚ; `qadd_eq` below certifies
`qadd a b = a + b`. -/
def qadd (a b : ℚ) : ℚ :=
  mkRat (a.num * (b.den : Int) + b.num * (a.den : Int)) (a.den * b.den)

/-- Dot product of two rational vectors (componentwise product, summed). -/
def dotQ : List ℚ → List ℚ → ℚ
  | x :: xs, y :: ys => qadd (qmul x y) (dotQ xs ys)
  | _, _ => 0

/-- Exact decision of `cosineSimilarity a b > t` for a nonnegative threshold
t: the similarity is `dot / (normA * normB)`, so for t ≥ 0 it exceeds t iff
the dot product is positive and its square beats `t² * ‖a‖² * ‖b‖²` (a
zero-norm vector yields similarity 0, matching sklearn). -/
def cosSimGT (a b : List ℚ) (t : ℚ) : Bool :=
  decide (0 < dotQ a b ∧ qmul (qmul t t) (qmul (dotQ a a) (dotQ b b)) < qmul (dotQ a b) (dotQ a b))

/-- One embedding-pass test in `check_duplicate`: the candidate must have a
truthy stored vector, the vector must parse and shape-match the new
embedding (a `json.loads` or `cosine_similarity` exception is caught and the
candidate skipped), and the cosine similarity must exceed 0.85. -/
def embMatch (v : List ℚ) (c : Suggestion) : Bool :=
  match c.embedding_vector with
  | some (EmbStored.good emb) => emb.length == v.length && cosSimGT v emb (mkRat 17 20)
  | _ => false

/-- One lexical-pass test in `check_duplicate`: case-insensitive ratio of
the two texts exceeds 85. -/
def lexOk (new : String) (c : Suggestion) : Bool :=
  decide (85 < fuzzScore (pyLower new) (pyLower c.text))

/-- First candidate, in order, satisfying a predicate (the shape of the
embedding and lexical passes). -/
def firstWhere (p : Suggestion → Bool) : List Suggestion → Option Suggestion
  | [] => none
  | c :: cs => if p c then some c else firstWhere p cs

/-- First candidate, in order, satisfying an index-dependent predicate. -/
def firstWhereIdx (p : Nat → Suggestion → Bool) : Nat → List Suggestion → Option Suggestion
  | _, [] => none
  | i, c :: cs => if p i c then some c else firstWhereIdx p (i + 1) cs

/-- The verdict of the i-th semantic-judge call of a `check_duplicate` run. -/
def judgeVerdict (env : DupEnv) (new : String) (i : Nat) (c : Suggestion) : Bool :=
  (is_semantically_similar (env.judge i) new c.text).1

/-- The semantic pass of `check_duplicate`: visit candidates in order,
returning the first one the judge accepts, accumulating every judge call's
metrics. -/
def semPass (env : DupEnv) (new : String) : Nat → List Suggestion →
    Option Suggestion × List OperationRecord
  | _, [] => (none, [])
  | i, c :: cs =>
    let s := is_semantically_similar (env.judge i) new c.text
    if s.1 then (some c, s.2)
    else
      let rest := semPass env new (i + 1) cs
      (rest.1, s.2 ++ rest.2)

/-- `check_duplicate`: semantic pass over all candidates; if none matches,
one `get_embedding` call, and when it yields a truthy vector, an embedding
pass; finally the lexical pass.  Returns the matched candidate or `None`,
with all emitted metrics. -/
def check_duplicate (env : DupEnv) (new : String) (cands : List Suggestion) :
    Option Suggestion × List OperationRecord :=
  let sem := semPass env new 0 cands
  match sem.1 with
  | some c => (some c, sem.2)
  | none =>
    let e := get_embedding env.embed new
    match e.1 with
    | some v =>
      if v = [] then (firstWhere (lexOk new) cands, sem.2 ++ e.2)
      else
        match firstWhere (embMatch v) cands with
        | some c => (some c, sem.2 ++ e.2)
        | none => (firstWhere (lexOk new) cands, sem.2 ++ e.2)
    | none => (firstWhere (lexOk new) cands, sem.2 ++ e.2)

/-- The duplicate-resolver cascade as §4.3 of the specification words it:
tier-major — the first candidate (in input order) the semantic judge
accepts; failing that, when the new text's embedding is available, the first
candidate whose stored embedding matches; failing that, the first candidate
with lexical ratio above 85. -/
def resolveSpec (env : DupEnv) (new : String) (cands : List Suggestion) : Option Suggestion :=
  match firstWhereIdx (judgeVerdict env new) 0 cands with
  | some c => some c
  | none =>
    match (get_embedding env.embed new).1 with
    | some v =>
      if v = [] then firstWhere (lexOk new) cands
      else
        match firstWhere (embMatch v) cands with
        | some c => some c
        | none => firstWhere (lexOk new) cands
    | none => firstWhere (lexOk new) cands

/-- Replace the metrics-commit flag of a generation environment. -/
def setDb (e : GenEnv) (b : Bool) : GenEnv :=
  ⟨e.providers, e.groq, e.openrouter, e.groqLat, e.orLat, b⟩

/-- Environment where only groq is available and it answers NO to the
duplicate-judgment prompt. -/
def genvNO : GenEnv := ⟨[Provider.groq], GroqResp.ok "NO", ORResp.exn "down", 1, 1, true⟩

/-- Environment where only groq is available and it replies with a string
that is not a valid YES/NO judgment. -/
def genvMaybe : GenEnv := ⟨[Provider.groq], GroqResp.ok "MAYBE", ORResp.exn "down", 1, 1, true⟩

/-- Environment with no available provider. -/
def envNoProv : GenEnv := ⟨[], GroqResp.exn "unavailable", ORResp.exn "unavailable", 0, 0, true⟩

/-- Environment where the only available provider raises a transport
exception. -/
def envGroqDown : GenEnv := ⟨[Provider.groq], GroqResp.exn "connection refused", ORResp.exn "down", 2, 3, true⟩

/-- Both generation providers reply with valid (but different) categories;
groq is shuffled first. -/
def envShufA : GenEnv :=
  ⟨[Provider.groq, Provider.openrouter], GroqResp.ok "Roads", ORResp.ok "Water", 0, 0, true⟩

/-- Same availability and same per-provider replies as `envShufA`, but the
shuffle placed openrouter first. -/
def envShufB : GenEnv :=
  ⟨[Provider.openrouter, Provider.groq], GroqResp.ok "Roads", ORResp.ok "Water", 0, 0, true⟩

/-- Same provider order and replies as `envShufA`, but different latencies
and a failing metrics database. -/
def envShufC : GenEnv :=
  ⟨[Provider.groq, Provider.openrouter], GroqResp.ok "Roads", ORResp.ok "Water", 5, 7, false⟩

/-- Embedding environment: key configured, call succeeds with vector [1, 0]. -/
def embedOK : EmbedEnv := ⟨true, EmbResp.ok [1, 0], 1, true⟩

/-- Embedding environment with no Gemini key configured. -/
def embedNoKey : EmbedEnv := ⟨false, EmbResp.exn "API key not configured", 0, true⟩

/-- Candidate whose text is one indel away from "abcdefghij" (lexical ratio
exactly 90) and whose stored embedding is malformed. -/
def badSugg : Suggestion := ⟨"abcdefghix", some EmbStored.bad⟩

/-- Candidate lexically unrelated to "abcdefghij" whose stored embedding
[1, 0] matches the new embedding perfectly. -/
def goodSugg : Suggestion := ⟨"zzzzzzzzzz", some (EmbStored.good [1, 0])⟩

/-- Candidate identical to the incoming text "abcdefghij", no stored
embedding. -/
def suggA : Suggestion := ⟨"abcdefghij", none⟩

/-- A second candidate identical to the incoming text "abcdefghij",
distinguishable from `suggA` by its stored (malformed) embedding column. -/
def suggB : Suggestion := ⟨"abcdefghij", some EmbStored.bad⟩

/-- Duplicate-resolver environment whose judge answers NO on every call and
whose embedding call succeeds with [1, 0]. -/
def denvNO : DupEnv := ⟨fun _ => genvNO, embedOK⟩

/-- Duplicate-resolver environment whose judge answers NO on every call and
whose embedding is unavailable (no key). -/
def denvNoEmb : DupEnv := ⟨fun _ => genvNO, embedNoKey⟩

/-- A 31-token input for exercising the summarize truncation fallback. -/
def manyTokens : String := String.intercalate " " (List.replicate 31 "a")

/-! ## Certifying lemmas for the kernel-computable rational arithmetic -/

theorem qmul_eq (a b : ℚ) : qmul a b = a * b := by
  rw [qmul, Rat.mkRat_eq_div]
  push_cast
  conv_rhs => rw [← Rat.num_div_den a, ← Rat.num_div_den b]
  rw [div_mul_div_comm]

theorem qadd_eq (a b : ℚ) : qadd a b = a + b := by
  rw [qadd, Rat.mkRat_eq_div]
  push_cast
  conv_rhs => rw [← Rat.num_div_den a, ← Rat.num_div_den b]
  rw [div_add_div _ _ (by exact_mod_cast a.den_nz) (by exact_mod_cast b.den_nz)]
  ring_nf

theorem fuzzScore_eq_div (a b : String) (h : a.data.length + b.data.length ≠ 0) :
    fuzzScore a b = 200 * (lcs a.data b.data : ℚ) / ((a.data.length + b.data.length : Nat) : ℚ) := by
  rw [fuzzScore, if_neg h, Rat.mkRat_eq_div]
  push_cast
  ring

/-! ## Structural lemmas about the provider cascade -/

theorem opt_none_of_isSome_false {α : Type} {o : Option α} (h : o.isSome = false) : o = none := by
  cases o
  · rfl
  · simp at h

theorem track_true (r : OperationRecord) (log : List OperationRecord) :
    track_ai_metric true r log = log ++ [r] := rfl

theorem track_false (r : OperationRecord) (log : List OperationRecord) :
    track_ai_metric false r log = log := rfl

theorem attempt_fst_isSome {α : Type} (env : GenEnv) (op : String) (v : String → Option α)
    (m : String → String) (p : Provider) :
    ((providerAttempt env op v m p).1).isSome = providerValid env v p := by
  cases p with
  | groq =>
    cases hg : env.groq with
    | exn s => simp [providerAttempt, providerValid, hg]
    | ok c => cases hv : v c <;> simp [providerAttempt, providerValid, hg, hv]
  | openrouter =>
    cases ho : env.openrouter with
    | exn s => simp [providerAttempt, providerValid, ho]
    | httpErr n => simp [providerAttempt, providerValid, ho]
    | ok c => cases hv : v c <;> simp [providerAttempt, providerValid, ho, hv]

theorem attempt_fst_some {α : Type} (env : GenEnv) (op : String) (v : String → Option α)
    (m : String → String) (p : Provider) (a : α)
    (h : (providerAttempt env op v m p).1 = some a) : ∃ c, v c = some a := by
  cases p with
  | groq =>
    cases hg : env.groq with
    | exn s => simp [providerAttempt, hg] at h
    | ok c =>
      cases hv : v c with
      | none => simp [providerAttempt, hg, hv] at h
      | some x =>
        refine ⟨c, ?_⟩
        simp [providerAttempt, hg, hv] at h
        rw [hv, h]
  | openrouter =>
    cases ho : env.openrouter with
    | exn s => simp [providerAttempt, ho] at h
    | httpErr n => simp [providerAttempt, ho] at h
    | ok c =>
      cases hv : v c with
      | none => simp [providerAttempt, ho, hv] at h
      | some x =>
        refine ⟨c, ?_⟩
        simp [providerAttempt, ho, hv] at h
        rw [hv, h]

theorem attempt_fst_congr {α : Type} (e1 e2 : GenEnv) (op : String) (v : String → Option α)
    (m : String → String) (p : Provider) (hg : e1.groq = e2.groq)
    (ho : e1.openrouter = e2.openrouter) :
    (providerAttempt e1 op v m p).1 = (providerAttempt e2 op v m p).1 := by
  cases p with
  | groq =>
    cases hx : e2.groq with
    | exn s => simp [providerAttempt, hg, hx]
    | ok c => cases hv : v c <;> simp [providerAttempt, hg, hx, hv]
  | openrouter =>
    cases hx : e2.openrouter with
    | exn s => simp [providerAttempt, ho, hx]
    | httpErr n => simp [providerAttempt, ho, hx]
    | ok c => cases hv : v c <;> simp [providerAttempt, ho, hx, hv]

theorem genLoop_fst_isSome {α : Type} (env : GenEnv) (op : String) (v : String → Option α)
    (m : String → String) :
    ∀ (ps : List Provider) (log : List OperationRecord),
      ((genLoop env op v m ps log).1).isSome = ps.any (providerValid env v) := by
  intro ps
  induction ps with
  | nil => intro log; simp [genLoop]
  | cons p ps ih =>
    intro log
    cases ha : (providerAttempt env op v m p).1 with
    | some x =>
      have hv : providerValid env v p = true := by
        rw [← attempt_fst_isSome env op v m p, ha]; rfl
      simp [genLoop, ha, hv]
    | none =>
      have hv : providerValid env v p = false := by
        rw [← attempt_fst_isSome env op v m p, ha]; rfl
      simp [genLoop, ha, hv, ih]

theorem genLoop_fst_none {α : Type} (env : GenEnv) (op : String) (v : String → Option α)
    (m : String → String) (ps : List Provider) (log : List OperationRecord)
    (h : ∀ p ∈ ps, providerValid env v p = false) : (genLoop env op v m ps log).1 = none := by
  apply opt_none_of_isSome_false
  rw [genLoop_fst_isSome]
  simp only [List.any_eq_false]
  intro p hp
  simp [h p hp]

theorem genLoop_fst_some {α : Type} (env : GenEnv) (op : String) (v : String → Option α)
    (m : String → String) :
    ∀ (ps : List Provider) (log : List OperationRecord) (a : α),
      (genLoop env op v m ps log).1 = some a → ∃ c, v c = some a := by
  intro ps
  induction ps with
  | nil => intro log a h; simp [genLoop] at h
  | cons p ps ih =>
    intro log a h
    cases ha : (providerAttempt env op v m p).1 with
    | some x =>
      simp [genLoop, ha] at h
      exact attempt_fst_some env op v m p a (by rw [ha, h])
    | none =>
      simp [genLoop, ha] at h
      exact ih _ a h

theorem genLoop_fst_congr {α : Type} (e1 e2 : GenEnv) (op : String) (v : String → Option α)
    (m : String → String) (hg : e1.groq = e2.groq) (ho : e1.openrouter = e2.openrouter) :
    ∀ (ps : List Provider) (log1 log2 : List OperationRecord),
      (genLoop e1 op v m ps log1).1 = (genLoop e2 op v m ps log2).1 := by
  intro ps
  induction ps with
  | nil => intro log1 log2; rfl
  | cons p ps ih =>
    intro log1 log2
    have hA := attempt_fst_congr e1 e2 op v m p hg ho
    cases ha : (providerAttempt e2 op v m p).1 with
    | some x =>
      rw [ha] at hA
      simp [genLoop, hA, ha]
    | none =>
      rw [ha] at hA
      simp only [genLoop, hA, ha]
      exact ih _ _

theorem genLoop_len {α : Type} (env : GenEnv) (op : String) (v : String → Option α)
    (m : String → String) (hdb : env.dbOk = true) :
    ∀ (ps : List Provider) (log : List OperationRecord),
      (genLoop env op v m ps log).2.length = log.length + attemptsCount env v ps := by
  intro ps
  induction ps with
  | nil => intro log; simp [genLoop, attemptsCount]
  | cons p ps ih =>
    intro log
    cases ha : (providerAttempt env op v m p).1 with
    | some x =>
      have hv : providerValid env v p = true := by
        rw [← attempt_fst_isSome env op v m p, ha]; rfl
      simp [genLoop, ha, hv, attemptsCount, hdb, track_true]
    | none =>
      have hv : providerValid env v p = false := by
        rw [← attempt_fst_isSome env op v m p, ha]; rfl
      simp only [genLoop, ha, hdb, track_true, attemptsCount, hv, if_false, Bool.false_eq_true]
      rw [ih]
      simp only [List.length_append, List.length_cons, List.length_nil]
      omega

theorem categorize_fst_congr (e1 e2 : GenEnv) (t : String) (hp : e1.providers = e2.providers)
    (hg : e1.groq = e2.groq) (ho : e1.openrouter = e2.openrouter) :
    (categorize e1 t).1 = (categorize e2 t).1 := by
  have h := genLoop_fst_congr e1 e2 "categorize" validCat catMsg hg ho e2.providers [] []
  simp only [categorize, hp, h]
  cases (genLoop e2 "categorize" validCat catMsg e2.providers []).1 <;> rfl

theorem categorizeFallback_mem (t : String) : categorizeFallback t ∈ categories := by
  simp only [categorizeFallback]
  split_ifs <;> decide

theorem firstWhere_mem (p : Suggestion → Bool) :
    ∀ (cs : List Suggestion) (s : Suggestion), firstWhere p cs = some s → s ∈ cs := by
  intro cs
  induction cs with
  | nil => intro s h; simp [firstWhere] at h
  | cons c cs ih =>
    intro s h
    by_cases hc : p c = true
    · simp [firstWhere, hc] at h
      simp [h]
    · simp only [Bool.not_eq_true] at hc
      simp only [firstWhere, hc, Bool.false_eq_true, if_false] at h
      exact List.mem_cons_of_mem c (ih s h)

theorem firstWhereIdx_mem (p : Nat → Suggestion → Bool) :
    ∀ (i : Nat) (cs : List Suggestion) (s : Suggestion), firstWhereIdx p i cs = some s → s ∈ cs := by
  intro i cs
  induction cs generalizing i with
  | nil => intro s h; simp [firstWhereIdx] at h
  | cons c cs ih =>
    intro s h
    by_cases hc : p i c = true
    · simp [firstWhereIdx, hc] at h
      simp [h]
    · simp only [Bool.not_eq_true] at hc
      simp only [firstWhereIdx, hc, Bool.false_eq_true, if_false] at h
      exact List.mem_cons_of_mem c (ih (i + 1) s h)

theorem semPass_fst (env : DupEnv) (new : String) :
    ∀ (i : Nat) (cs : List Suggestion),
      (semPass env new i cs).1 = firstWhereIdx (judgeVerdict env new) i cs := by
  intro i cs
  induction cs generalizing i with
  | nil => rfl
  | cons c cs ih =>
    cases hb : (is_semantically_similar (env.judge i) new c.text).1 with
    | true => simp [semPass, firstWhereIdx, judgeVerdict, hb]
    | false => simp [semPass, firstWhereIdx, judgeVerdict, hb, ih]

theorem check_fst_resolveSpec (env : DupEnv) (new : String) (cands : List Suggestion) :
    (check_duplicate env new cands).1 = resolveSpec env new cands := by
  simp only [check_duplicate, resolveSpec, semPass_fst]
  cases firstWhereIdx (judgeVerdict env new) 0 cands with
  | some c => rfl
  | none =>
    cases (get_embedding env.embed new).1 with
    | none => rfl
    | some v =>
      by_cases hv : v = []
      · simp [hv]
      · simp only [hv, if_neg, if_false]
        cases firstWhere (embMatch v) cands <;> simp [hv]

theorem check_mem (env : DupEnv) (new : String) (cands : List Suggestion) (s : Suggestion)
    (h : (check_duplicate env new cands).1 = some s) : s ∈ cands := by
  rw [check_fst_resolveSpec] at h
  cases hs : firstWhereIdx (judgeVerdict env new) 0 cands with
  | some c =>
    simp only [resolveSpec, hs, Option.some.injEq] at h
    rw [← h]
    exact firstWhereIdx_mem (judgeVerdict env new) 0 cands c hs
  | none =>
    cases he : (get_embedding env.embed new).1 with
    | none =>
      simp only [resolveSpec, hs, he] at h
      exact firstWhere_mem (lexOk new) cands s h
    | some v =>
      by_cases hv : v = []
      · simp only [resolveSpec, hs, he, hv, if_true] at h
        exact firstWhere_mem (lexOk new) cands s h
      · cases hf : firstWhere (embMatch v) cands with
        | some c =>
          simp only [resolveSpec, hs, he, hf, hv, if_false, Option.some.injEq] at h
          rw [← h]
          exact firstWhere_mem (embMatch v) cands c hf
        | none =>
          simp only [resolveSpec, hs, he, hf, hv, if_false] at h
          exact firstWhere_mem (lexOk new) cands s h

theorem genLoop_summ (env : GenEnv) :
    ∀ (ps : List Provider) (log : List OperationRecord),
      (genLoop env "summarize" validSumm noMsg ps log).1 = none ∨
        ∃ c, (env.groq = GroqResp.ok c ∨ env.openrouter = ORResp.ok c) ∧
          (genLoop env "summarize" validSumm noMsg ps log).1 = some (pyStrip c) := by
  intro ps
  induction ps with
  | nil => intro log; left; rfl
  | cons p ps ih =>
    intro log
    cases p with
    | groq =>
      cases ha : (providerAttempt env "summarize" validSumm noMsg Provider.groq).1 with
      | none =>
        simp only [genLoop, ha]
        exact ih _
      | some x =>
        cases hg : env.groq with
        | exn s => simp [providerAttempt, hg] at ha
        | ok c =>
          have hx : pyStrip c = x := by
            have h2 := ha
            simp [providerAttempt, hg, validSumm] at h2
            exact h2
          right
          refine ⟨c, Or.inl rfl, ?_⟩
          simp [genLoop, ha, hx]
    | openrouter =>
      cases ha : (providerAttempt env "summarize" validSumm noMsg Provider.openrouter).1 with
      | none =>
        simp only [genLoop, ha]
        exact ih _
      | some x =>
        cases ho : env.openrouter with
        | exn s => simp [providerAttempt, ho] at ha
        | httpErr n => simp [providerAttempt, ho] at ha
        | ok c =>
          have hx : pyStrip c = x := by
            have h2 := ha
            simp [providerAttempt, ho, validSumm] at h2
            exact h2
          right
          refine ⟨c, Or.inr rfl, ?_⟩
          simp [genLoop, ha, hx]

theorem categorize_len (env : GenEnv) (t : String) (hdb : env.dbOk = true) :
    (categorize env t).2.length =
      attemptsCount env validCat env.providers +
        (if env.providers.any (providerValid env validCat) then 0 else 1) := by
  have hlen := genLoop_len env "categorize" validCat catMsg hdb env.providers []
  cases hr : (genLoop env "categorize" validCat catMsg env.providers []).1 with
  | some c =>
    have hany : env.providers.any (providerValid env validCat) = true := by
      rw [← genLoop_fst_isSome env "categorize" validCat catMsg env.providers [], hr]; rfl
    simp only [categorize, hr, hany, if_true]
    simpa using hlen
  | none =>
    have hany : env.providers.any (providerValid env validCat) = false := by
      rw [← genLoop_fst_isSome env "categorize" validCat catMsg env.providers [], hr]; rfl
    simp only [categorize, hr, hany, hdb, track_true, Bool.false_eq_true, if_false]
    simp only [List.length_append, List.length_cons, List.length_nil]
    simp only [List.length_nil, Nat.zero_add] at hlen
    omega

theorem sentiment_len (env : GenEnv) (t : String) (hdb : env.dbOk = true) :
    (analyze_sentiment env t).2.length =
      attemptsCount env validSent env.providers +
        (if env.providers.any (providerValid env validSent) then 0 else 1) := by
  have hlen := genLoop_len env "sentiment" validSent sentMsg hdb env.providers []
  cases hr : (genLoop env "sentiment" validSent sentMsg env.providers []).1 with
  | some c =>
    have hany : env.providers.any (providerValid env validSent) = true := by
      rw [← genLoop_fst_isSome env "sentiment" validSent sentMsg env.providers [], hr]; rfl
    simp only [analyze_sentiment, hr, hany, if_true]
    simpa using hlen
  | none =>
    have hany : env.providers.any (providerValid env validSent) = false := by
      rw [← genLoop_fst_isSome env "sentiment" validSent sentMsg env.providers [], hr]; rfl
    simp only [analyze_sentiment, hr, hany, hdb, track_true, Bool.false_eq_true, if_false]
    simp only [List.length_append, List.length_cons, List.length_nil]
    simp only [List.length_nil, Nat.zero_add] at hlen
    omega

theorem summarize_len (env : GenEnv) (t : String) (hdb : env.dbOk = true) :
    (summarize env t).2.length =
      attemptsCount env validSumm env.providers +
        (if env.providers.any (providerValid env validSumm) then 0 else 1) := by
  have hlen := genLoop_len env "summarize" validSumm noMsg hdb env.providers []
  cases hr : (genLoop env "summarize" validSumm noMsg env.providers []).1 with
  | some c =>
    have hany : env.providers.any (providerValid env validSumm) = true := by
      rw [← genLoop_fst_isSome env "summarize" validSumm noMsg env.providers [], hr]; rfl
    simp only [summarize, hr, hany, if_true]
    simpa using hlen
  | none =>
    have hany : env.providers.any (providerValid env validSumm) = false := by
      rw [← genLoop_fst_isSome env "summarize" validSumm noMsg env.providers [], hr]; rfl
    simp only [summarize, hr, hany, hdb, track_true, Bool.false_eq_true, if_false]
    simp only [List.length_append, List.length_cons, List.length_nil]
    simp only [List.length_nil, Nat.zero_add] at hlen
    omega

theorem categorize_fallback_last (env : GenEnv) (t : String) (hdb : env.dbOk = true)
    (hany : env.providers.any (providerValid env validCat) = false) :
    (categorize env t).2.getLast? = some (fbRec "categorize") := by
  have hr : (genLoop env "categorize" validCat catMsg env.providers []).1 = none := by
    apply opt_none_of_isSome_false
    rw [genLoop_fst_isSome]
    exact hany
  simp only [categorize, hr, hdb, track_true]
  exact List.getLast?_concat _

theorem embedding_len (eenv : EmbedEnv) (t : String) (hdb : eenv.dbOk = true) :
    (get_embedding eenv t).2.length = if eenv.keyConfigured then 1 else 0 := by
  by_cases hk : eenv.keyConfigured
  · cases hr : eenv.result <;> simp [get_embedding, hk, hr, hdb, track_true]
  · simp [get_embedding, hk]

theorem sentiment_fallback_last (env : GenEnv) (t : String) (hdb : env.dbOk = true)
    (hany : env.providers.any (providerValid env validSent) = false) :
    (analyze_sentiment env t).2.getLast? = some (fbRec "sentiment") := by
  have hr : (genLoop env "sentiment" validSent sentMsg env.providers []).1 = none := by
    apply opt_none_of_isSome_false
    rw [genLoop_fst_isSome]
    exact hany
  simp only [analyze_sentiment, hr, hdb, track_true]
  exact List.getLast?_concat _

theorem summarize_fallback_last (env : GenEnv) (t : String) (hdb : env.dbOk = true)
    (hany : env.providers.any (providerValid env validSumm) = false) :
    (summarize env t).2.getLast? = some (fbRec "summarize") := by
  have hr : (genLoop env "summarize" validSumm noMsg env.providers []).1 = none := by
    apply opt_none_of_isSome_false
    rw [genLoop_fst_isSome]
    exact hany
  simp only [summarize, hr, hdb, track_true]
  exact List.getLast?_concat _

theorem semsim_len (env : GenEnv) (t1 t2 : String) (hdb : env.dbOk = true)
    (h1 : 60 ≤ fuzzScore (pyLower t1) (pyLower t2))
    (h2 : fuzzScore (pyLower t1) (pyLower t2) ≤ 90) :
    (is_semantically_similar env t1 t2).2.length =
      attemptsCount env validYN env.providers +
        (if env.providers.any (providerValid env validYN) then 0 else 1) := by
  have hlen := genLoop_len env "duplicate_check" validYN ynMsg hdb env.providers []
  simp only [is_semantically_similar]
  rw [if_neg (not_lt.2 h2), if_neg (not_lt.2 h1)]
  cases hr : (genLoop env "duplicate_check" validYN ynMsg env.providers []).1 with
  | some b =>
    have hany : env.providers.any (providerValid env validYN) = true := by
      rw [← genLoop_fst_isSome env "duplicate_check" validYN ynMsg env.providers [], hr]; rfl
    simp only [hr, hany, if_true]
    simpa using hlen
  | none =>
    have hany : env.providers.any (providerValid env validYN) = false := by
      rw [← genLoop_fst_isSome env "duplicate_check" validYN ynMsg env.providers [], hr]; rfl
    simp only [hr, hany, hdb, track_true, Bool.false_eq_true, if_false]
    simp only [List.length_append, List.length_cons, List.length_nil]
    simp only [List.length_nil, Nat.zero_add] at hlen
    omega

theorem semsim_fallback_last (env : GenEnv) (t1 t2 : String) (hdb : env.dbOk = true)
    (h1 : 60 ≤ fuzzScore (pyLower t1) (pyLower t2))
    (h2 : fuzzScore (pyLower t1) (pyLower t2) ≤ 90)
    (hany : env.providers.any (providerValid env validYN) = false) :
    (is_semantically_similar env t1 t2).2.getLast? = some (fbRec "duplicate_check") := by
  have hr : (genLoop env "duplicate_check" validYN ynMsg env.providers []).1 = none := by
    apply opt_none_of_isSome_false
    rw [genLoop_fst_isSome]
    exact hany
  simp only [is_semantically_similar]
  rw [if_neg (not_lt.2 h2), if_neg (not_lt.2 h1)]
  simp only [hr, hdb, track_true]
  exact List.getLast?_concat _

/-! ## Claims -/

/-- C1, counterexample: the resolver is not candidate-major.  With incoming
text "abcdefghij", the first candidate `badSugg` matches the lexical tier
(ratio 90 > 85), yet `check_duplicate` returns the later candidate `suggA`,
because `suggA` matches the earlier (semantic) tier while the judge answers
NO for `badSugg`. -/
theorem c1_counterexample :
    lexOk "abcdefghij" badSugg = true ∧
    (check_duplicate denvNoEmb "abcdefghij" [badSugg, suggA]).1 = some suggA ∧
    suggA ≠ badSugg :=
  ⟨by decide, by decide, by decide⟩

/-- C1 (amended): `findDuplicate` is tier-major: it returns the first
candidate in input order accepted by the semantic judge; failing that, when
the new embedding is available, the first candidate whose stored embedding
matches; failing that, the first candidate with lexical ratio above 85
(`resolveSpec`).  Moreover changing candidate order can change which
candidate is returned when several match: two distinct candidates, each
matching, are returned respectively first under either ordering. -/
theorem c1_tier_major_first_match :
    (∀ (env : DupEnv) (new : String) (cands : List Suggestion),
        (check_duplicate env new cands).1 = resolveSpec env new cands) ∧
    (check_duplicate denvNoEmb "abcdefghij" [suggA, suggB]).1 = some suggA ∧
    (check_duplicate denvNoEmb "abcdefghij" [suggB, suggA]).1 = some suggB ∧
    suggA ≠ suggB :=
  ⟨check_fst_resolveSpec, by decide, by decide, by decide⟩

/-- C2, counterexample: a single `categorize` invocation whose only provider
fails emits two OperationRecords (the failed attempt and the fallback), and a
`get_embedding` invocation with no key configured emits none — so an
invocation does not produce exactly one record. -/
theorem c2_counterexample :
    (categorize envGroqDown "x").2.length = 2 ∧
    (get_embedding embedNoKey "x").2.length = 0 :=
  ⟨by decide, by decide⟩

/-- C2 (amended): record accounting is per attempt, not per invocation, for
all five Provider-Gateway-backed operations.  Each of categorize, summarize,
sentiment, and the duplicate judgment (once its ambiguous band is reached,
the only place the source consults providers) emits exactly one
OperationRecord per provider attempted, stopping at the first validated
reply, plus exactly one additional record when it falls back, that trailing
record being the fallback pseudo-provider record with zero latency;
`get_embedding` emits exactly one record when the key is configured and none
otherwise. -/
theorem c2_record_accounting (env : GenEnv) (eenv : EmbedEnv) (t t1 t2 : String)
    (hdb : env.dbOk = true) (hedb : eenv.dbOk = true) :
    (categorize env t).2.length =
        attemptsCount env validCat env.providers +
          (if env.providers.any (providerValid env validCat) then 0 else 1) ∧
    (analyze_sentiment env t).2.length =
        attemptsCount env validSent env.providers +
          (if env.providers.any (providerValid env validSent) then 0 else 1) ∧
    (summarize env t).2.length =
        attemptsCount env validSumm env.providers +
          (if env.providers.any (providerValid env validSumm) then 0 else 1) ∧
    (60 ≤ fuzzScore (pyLower t1) (pyLower t2) →
      fuzzScore (pyLower t1) (pyLower t2) ≤ 90 →
      (is_semantically_similar env t1 t2).2.length =
        attemptsCount env validYN env.providers +
          (if env.providers.any (providerValid env validYN) then 0 else 1)) ∧
    (env.providers.any (providerValid env validCat) = false →
      (categorize env t).2.getLast? = some (fbRec "categorize")) ∧
    (env.providers.any (providerValid env validSent) = false →
      (analyze_sentiment env t).2.getLast? = some (fbRec "sentiment")) ∧
    (env.providers.any (providerValid env validSumm) = false →
      (summarize env t).2.getLast? = some (fbRec "summarize")) ∧
    (60 ≤ fuzzScore (pyLower t1) (pyLower t2) →
      fuzzScore (pyLower t1) (pyLower t2) ≤ 90 →
      env.providers.any (providerValid env validYN) = false →
      (is_semantically_similar env t1 t2).2.getLast? = some (fbRec "duplicate_check")) ∧
    (get_embedding eenv t).2.length = (if eenv.keyConfigured then 1 else 0) :=
  ⟨categorize_len env t hdb, sentiment_len env t hdb, summarize_len env t hdb,
    fun h1 h2 => semsim_len env t1 t2 hdb h1 h2,
    fun hany => categorize_fallback_last env t hdb hany,
    fun hany => sentiment_fallback_last env t hdb hany,
    fun hany => summarize_fallback_last env t hdb hany,
    fun h1 h2 hany => semsim_fallback_last env t1 t2 hdb h1 h2 hany,
    embedding_len eenv t hedb⟩

/-- C2, witness: with only groq available and failing by exception,
`categorize` emits two records (attempt + fallback), an in-band duplicate
judgment (ratio 90) also emits two, its last record being the zero-latency
duplicate_check fallback record, and with the key configured `get_embedding`
emits one. -/
theorem c2_witness :
    (categorize envGroqDown "x").2.length = 2 ∧
    (is_semantically_similar envGroqDown "abcdefghij" "abcdefghix").2.length = 2 ∧
    (is_semantically_similar envGroqDown "abcdefghij" "abcdefghix").2.getLast? =
      some (fbRec "duplicate_check") ∧
    (get_embedding embedOK "x").2.length = 1 := by
  have h := c2_record_accounting envGroqDown embedOK "x" "abcdefghij" "abcdefghix" rfl rfl
  exact ⟨h.1.trans (by decide),
    (h.2.2.2.1 (by decide) (by decide)).trans (by decide),
    h.2.2.2.2.2.2.2.1 (by decide) (by decide) (by decide),
    h.2.2.2.2.2.2.2.2.trans (by decide)⟩

/-- C3: whenever the case-insensitive lexical ratio exceeds 90,
`areSameIdea` returns true with an empty metrics trace — hence without any
provider call — and whenever the ratio is below 60 it returns false, again
with no provider call, for every provider environment. -/
theorem c3_prefilter_short_circuit (env : GenEnv) (t1 t2 : String) :
    (90 < fuzzScore (pyLower t1) (pyLower t2) →
      is_semantically_similar env t1 t2 = (true, [])) ∧
    (fuzzScore (pyLower t1) (pyLower t2) < 60 →
      is_semantically_similar env t1 t2 = (false, [])) := by
  constructor
  · intro h
    simp only [is_semantically_similar]
    rw [if_pos h]
  · intro h
    simp only [is_semantically_similar]
    rw [if_neg (not_lt.2 (h.trans (by norm_num)).le), if_pos h]

/-- C3, witness: identical texts (ratio 100) short-circuit to true, disjoint
texts (ratio 0) to false, both with empty traces. -/
theorem c3_witness :
    is_semantically_similar genvMaybe "hello" "hello" = (true, []) ∧
    is_semantically_similar genvMaybe "aaaa" "zzzz" = (false, []) :=
  ⟨(c3_prefilter_short_circuit genvMaybe "hello" "hello").1 (by decide),
    (c3_prefilter_short_circuit genvMaybe "aaaa" "zzzz").2 (by decide)⟩

/-- C4: in the ambiguous band (ratio between 60 and 90 inclusive), when no
provider yields a valid YES/NO judgment, `areSameIdea` returns exactly the
verdict of the stricter lexical threshold: true iff the ratio exceeds 85. -/
theorem c4_ambiguous_band_fallback (env : GenEnv) (t1 t2 : String)
    (h1 : 60 ≤ fuzzScore (pyLower t1) (pyLower t2))
    (h2 : fuzzScore (pyLower t1) (pyLower t2) ≤ 90)
    (hfail : ∀ p ∈ env.providers, providerValid env validYN p = false) :
    (is_semantically_similar env t1 t2).1 =
      decide (85 < fuzzScore (pyLower t1) (pyLower t2)) := by
  simp only [is_semantically_similar]
  rw [if_neg (not_lt.2 h2), if_neg (not_lt.2 h1)]
  have hn := genLoop_fst_none env "duplicate_check" validYN ynMsg env.providers [] hfail
  simp [hn]

/-- C4, witness: ratio 90 (in the band), the only provider replies MAYBE
(invalid shape), and the verdict is the fallback 90 > 85, namely true. -/
theorem c4_witness :
    (is_semantically_similar genvMaybe "abcdefghij" "abcdefghix").1 = true :=
  (c4_ambiguous_band_fallback genvMaybe "abcdefghij" "abcdefghix"
    (by decide) (by decide) (by decide)).trans (by decide)

/-- C5: every public operation is total over every provider environment:
`categorize` always lands in the fixed category set, `analyzeSentiment` in
the fixed sentiment set, `summarize` yields either a provider reply or the
deterministic truncation, and `findDuplicate` yields nothing or one of its
own candidates — no environment (transport failures, invalid shapes, absent
providers included) escapes these domains. -/
theorem c5_operations_total (env : GenEnv) (denv : DupEnv) (t : String)
    (cands : List Suggestion) :
    (categorize env t).1 ∈ categories ∧
    (analyze_sentiment env t).1 ∈ sentiments ∧
    ((summarize env t).1 = summarizeFallback t ∨
      ∃ c, (env.groq = GroqResp.ok c ∨ env.openrouter = ORResp.ok c) ∧
        (summarize env t).1 = pyStrip c) ∧
    ((check_duplicate denv t cands).1 = none ∨
      ∃ s ∈ cands, (check_duplicate denv t cands).1 = some s) := by
  refine ⟨?_, ?_, ?_, ?_⟩
  · cases hr : (genLoop env "categorize" validCat catMsg env.providers []).1 with
    | some c =>
      obtain ⟨x, hx⟩ := genLoop_fst_some env "categorize" validCat catMsg env.providers [] c hr
      have hc : c ∈ categories := by
        by_cases hmem : pyStrip x ∈ categories
        · simp only [validCat, hmem, if_true, Option.some.injEq] at hx
          rw [← hx]; exact hmem
        · simp [validCat, hmem] at hx
      simp only [categorize, hr]
      exact hc
    | none =>
      simp only [categorize, hr]
      exact categorizeFallback_mem t
  · cases hr : (genLoop env "sentiment" validSent sentMsg env.providers []).1 with
    | some c =>
      obtain ⟨x, hx⟩ := genLoop_fst_some env "sentiment" validSent sentMsg env.providers [] c hr
      have hc : c ∈ sentiments := by
        by_cases hmem : pyStrip x ∈ sentiments
        · simp only [validSent, hmem, if_true, Option.some.injEq] at hx
          rw [← hx]; exact hmem
        · simp [validSent, hmem] at hx
      simp only [analyze_sentiment, hr]
      exact hc
    | none =>
      simp only [analyze_sentiment, hr]
      decide
  · cases genLoop_summ env env.providers [] with
    | inl h =>
      left
      simp [summarize, h]
    | inr h =>
      obtain ⟨c, hsrc, hval⟩ := h
      right
      exact ⟨c, hsrc, by simp [summarize, hval]⟩
  · cases hc : (check_duplicate denv t cands).1 with
    | none => left; rfl
    | some s => right; exact ⟨s, check_mem denv t cands s hc, rfl⟩

/-- C6: when no provider is available or every provider fails, `categorize`
resolves through the ordered keyword matcher and always yields one of the
seven fixed categories, and `analyzeSentiment` yields exactly Neutral —
never null, never out of domain. -/
theorem c6_fallback_domains (env : GenEnv) (t : String)
    (hc : ∀ p ∈ env.providers, providerValid env validCat p = false)
    (hs : ∀ p ∈ env.providers, providerValid env validSent p = false) :
    (categorize env t).1 = categorizeFallback t ∧
    (categorize env t).1 ∈ categories ∧
    (analyze_sentiment env t).1 = "Neutral" ∧
    (analyze_sentiment env t).1 ∈ sentiments := by
  have h1 := genLoop_fst_none env "categorize" validCat catMsg env.providers [] hc
  have h2 := genLoop_fst_none env "sentiment" validSent sentMsg env.providers [] hs
  refine ⟨by simp [categorize, h1], ?_, by simp [analyze_sentiment, h2], ?_⟩
  · simp only [categorize, h1]
    exact categorizeFallback_mem t
  · simp only [analyze_sentiment, h2]
    decide

/-- C6, witness: with no available provider, the pothole text lands on Roads
via the "road" keyword, and the sentiment is Neutral. -/
theorem c6_witness :
    (categorize envNoProv "There is a big pothole on Main Road").1 = "Roads" ∧
    (analyze_sentiment envNoProv "There is a big pothole on Main Road").1 = "Neutral" := by
  have h := c6_fallback_domains envNoProv "There is a big pothole on Main Road"
    (by decide) (by decide)
  exact ⟨h.1.trans (by decide), h.2.2.1⟩

/-- C7: when every provider fails, `summarize` returns the first 30
whitespace-delimited tokens joined by single spaces, with the ellipsis
marker appended exactly when the input has more than 30 tokens. -/
theorem c7_summarize_truncation (env : GenEnv) (t : String)
    (h : ∀ p ∈ env.providers, providerValid env validSumm p = false) :
    (summarize env t).1 =
      String.intercalate " " ((pySplit t).take 30) ++
        (if 30 < (pySplit t).length then "..." else "") := by
  have hn := genLoop_fst_none env "summarize" validSumm noMsg env.providers [] h
  simp [summarize, hn, summarizeFallback]

/-- C7, witness: a two-token input passes through unchanged with no
ellipsis; a 31-token input is cut to 30 tokens with the ellipsis. -/
theorem c7_witness :
    (summarize envNoProv "hello world").1 = "hello world" ∧
    (summarize envNoProv manyTokens).1 =
      String.intercalate " " (List.replicate 30 "a") ++ "..." := by
  have h1 := c7_summarize_truncation envNoProv "hello world" (by decide)
  have h2 := c7_summarize_truncation envNoProv manyTokens (by decide)
  exact ⟨h1.trans (by decide), h2.trans (by decide)⟩

/-- C8: the metrics write never raises and never disturbs the pipeline: with
a failing database the write is discarded and the log returned unchanged,
with a healthy database exactly the record is appended, and the category
computed by `categorize` is identical whatever the database flag. -/
theorem c8_metrics_never_block :
    (∀ (r : OperationRecord) (log : List OperationRecord), track_ai_metric false r log = log) ∧
    (∀ (r : OperationRecord) (log : List OperationRecord),
      track_ai_metric true r log = log ++ [r]) ∧
    (∀ (env : GenEnv) (b : Bool) (t : String),
      (categorize (setDb env b) t).1 = (categorize env t).1) :=
  ⟨track_false, track_true, fun env b t => categorize_fst_congr (setDb env b) env t rfl rfl rfl⟩

/-- C9, counterexample: two runs with the same provider availability (the
lists are permutations) and identical per-provider replies return different
categories, because the internal shuffle ordered the providers differently. -/
theorem c9_counterexample :
    envShufA.providers.Perm envShufB.providers ∧
    envShufA.groq = envShufB.groq ∧
    envShufA.openrouter = envShufB.openrouter ∧
    (categorize envShufA "x").1 ≠ (categorize envShufB "x").1 :=
  ⟨by decide, rfl, rfl, by decide⟩

/-- C9 (amended): `categorize` is deterministic once the shuffled provider
order is also fixed: two runs with the same (ordered) provider list and the
same per-provider replies yield the same category, whatever the latencies or
the metrics database state. -/
theorem c9_deterministic_given_order (e1 e2 : GenEnv) (t : String)
    (hp : e1.providers = e2.providers) (hg : e1.groq = e2.groq)
    (ho : e1.openrouter = e2.openrouter) :
    (categorize e1 t).1 = (categorize e2 t).1 :=
  categorize_fst_congr e1 e2 t hp hg ho

/-- C9, witness: same order and replies, different latencies and database
flag, same category. -/
theorem c9_witness : (categorize envShufA "x").1 = (categorize envShufC "x").1 :=
  c9_deterministic_given_order envShufA envShufC "x" rfl rfl rfl

/-- C10: a candidate whose stored embedding fails to parse is skipped
without aborting the embedding pass (the pass over it equals the pass over
the remaining candidates); concretely, after the malformed `badSugg` is
skipped the pass still matches `goodSugg`, and `badSugg` itself is still
caught by the subsequent lexical pass when it is the only candidate. -/
theorem c10_bad_embedding_skipped (v : List ℚ) (c : Suggestion) (cs : List Suggestion)
    (hbad : c.embedding_vector = some EmbStored.bad) :
    firstWhere (embMatch v) (c :: cs) = firstWhere (embMatch v) cs ∧
    (check_duplicate denvNO "abcdefghij" [badSugg, goodSugg]).1 = some goodSugg ∧
    (check_duplicate denvNO "abcdefghij" [badSugg]).1 = some badSugg := by
  refine ⟨?_, by decide, by decide⟩
  have hm : embMatch v c = false := by simp [embMatch, hbad]
  simp [firstWhere, hm]

/-- C10, witness: the skip equation applied to the malformed `badSugg`. -/
theorem c10_witness :
    firstWhere (embMatch [1, 0]) [badSugg, goodSugg] =
      firstWhere (embMatch [1, 0]) [goodSugg] :=
  (c10_bad_embedding_skipped [1, 0] badSugg [goodSugg] (by decide)).1

end Suggest
